import Mathlib

/-!
Shallow embedding of the Wi-Fi connectivity / provisioning service of the
`earbrain/esp-core` repository (`src/wifi_service.cpp`,
`include/earbrain/wifi_service.hpp`).

The driver (ESP-IDF), persistent storage (NVS) and the logging sink are
external collaborators: every driver interaction a method performs is taken
from an explicit oracle record (one field per `esp_*` call site, holding the
result that call returns), and the method additionally returns the list of
driver/storage calls it issued, the list of events it emitted, and the new
service state.  `ensure_initialized` is abstracted as a single oracle result:
its body consists solely of driver/NVS initialisation calls whose only
observable effects at this level are success/failure and the
`initialized`/`handlers_registered` flags.
-/

namespace Earbrain

/-! ### ESP-IDF error codes (esp_err.h / esp_wifi.h numeric values) -/

def ESP_OK : Int := 0
def ESP_FAIL : Int := -1
def ESP_ERR_INVALID_ARG : Int := 0x102
def ESP_ERR_INVALID_STATE : Int := 0x103
def ESP_ERR_NOT_FOUND : Int := 0x105
def ESP_ERR_NOT_SUPPORTED : Int := 0x106
def ESP_ERR_TIMEOUT : Int := 0x107
def ESP_ERR_WIFI_NOT_INIT : Int := 0x3001
def ESP_ERR_WIFI_NOT_STARTED : Int := 0x3002
def ESP_ERR_WIFI_CONN : Int := 0x3007
def ESP_ERR_WIFI_SSID : Int := 0x300A
def ESP_ERR_WIFI_PASSWORD : Int := 0x300B

/-! ### Wi-Fi disconnect reason codes (esp_wifi_types.h numeric values) -/

def WIFI_REASON_UNSPECIFIED : Nat := 1
def WIFI_REASON_AUTH_EXPIRE : Nat := 2
def WIFI_REASON_ASSOC_LEAVE : Nat := 8
def WIFI_REASON_4WAY_HANDSHAKE_TIMEOUT : Nat := 15
def WIFI_REASON_NO_AP_FOUND : Nat := 201
def WIFI_REASON_AUTH_FAIL : Nat := 202
def WIFI_REASON_HANDSHAKE_TIMEOUT : Nat := 204

/-! ### Value types from include/earbrain/wifi_service.hpp -/

inductive WifiMode where
  | Off
  | STA
  | AP
  | APSTA
deriving DecidableEq, Repr

inductive NativeMode where
  | null
  | sta
  | ap
  | apsta
deriving DecidableEq, Repr

inductive ProvisionMode where
  | SmartConfig
  | SoftAP
deriving DecidableEq, Repr

inductive WifiEvent where
  | Connected
  | Disconnected
  | ConnectionFailed
  | ProvisioningCredentialsReceived
  | ProvisioningCompleted
  | ProvisioningFailed
  | StateChanged
deriving DecidableEq, Repr

structure WifiCredentials where
  ssid : String
  passphrase : String
deriving DecidableEq, Repr

structure AccessPointConfig where
  ssid : String := "core-ap"
  channel : Nat := 1
  auth_mode : Nat := 0
  max_connections : Nat := 4
deriving DecidableEq, Repr

structure WifiConfig where
  ap_config : AccessPointConfig := {}
deriving DecidableEq, Repr

structure ProvisioningOptions where
  ap_ssid : String := "esp-provisioning"
  ap_channel : Nat := 1
  ap_auth_mode : Nat := 0
  ap_max_connections : Nat := 4
  timeout_ms : Nat := 120000
deriving DecidableEq, Repr

structure WifiEventData where
  event : WifiEvent
  mode : WifiMode := WifiMode.Off
  sta_connected : Bool := false
  sta_connecting : Bool := false
  provisioning_active : Bool := false
  error_code : Int := ESP_OK
  ip_address : Option Nat := none
  disconnect_reason : Option Nat := none
  credentials : Option WifiCredentials := none
deriving DecidableEq, Repr

structure WifiStatus where
  mode : WifiMode := WifiMode.Off
  sta_connected : Bool := false
  sta_connecting : Bool := false
  provisioning_active : Bool := false
  sta_ip : Nat := 0
  sta_last_disconnect_reason : Nat := WIFI_REASON_UNSPECIFIED
  sta_last_error : Int := ESP_OK
deriving DecidableEq, Repr

/-! ### Credential validation

`validation::is_valid_ssid` / `validation::is_valid_passphrase` live in
`include/earbrain/validation.hpp`, which is not part of the provided sources;
they are modelled from the spec. -/

/-- Modelled from the spec: `validation::is_valid_ssid` of the missing header
`earbrain/validation.hpp`; "identifier length in [1,32] bytes". -/
def is_valid_ssid (s : String) : Bool :=
  1 ≤ s.utf8ByteSize && s.utf8ByteSize ≤ 32

/-- A hexadecimal ASCII character (codepoint in 0-9, a-f or A-F). -/
def isHexChar (c : Char) : Bool :=
  (48 ≤ c.toNat && c.toNat ≤ 57) || (97 ≤ c.toNat && c.toNat ≤ 102) ||
    (65 ≤ c.toNat && c.toNat ≤ 70)

/-- Modelled from the spec: `validation::is_valid_passphrase` of the missing
header `earbrain/validation.hpp`; "secret length is 0 (open network) or in
[8,63] bytes, or exactly 64 hexadecimal characters (pre-shared key form)". -/
def is_valid_passphrase (p : String) : Bool :=
  p.utf8ByteSize == 0
    || (8 ≤ p.utf8ByteSize && p.utf8ByteSize ≤ 63)
    || (p.utf8ByteSize == 64 && p.toList.all isHexChar)

/-- `validate_station_config` (wifi_service.cpp:102): SSID checked first, then
passphrase; either failure yields `ESP_ERR_INVALID_ARG`. -/
def validate_station_config (creds : WifiCredentials) : Int :=
  if !is_valid_ssid creds.ssid then ESP_ERR_INVALID_ARG
  else if !is_valid_passphrase creds.passphrase then ESP_ERR_INVALID_ARG
  else ESP_OK

/-! ### Service state (the WifiService fields of wifi_service.hpp)

The C++ field `initialized` is rendered `inited`.  Listeners are identified by
a `Nat` tag; `listeners` is the subscription list built by `on()`. -/

structure WifiServiceState where
  wifi_config : WifiConfig := {}
  credentials : WifiCredentials := ⟨"", ""⟩
  cached_credentials : Option WifiCredentials := none
  temp_provisioning_credentials : Option WifiCredentials := none
  inited : Bool := false
  handlers_registered : Bool := false
  sta_connected : Bool := false
  sta_connecting : Bool := false
  sta_manual_disconnect : Bool := false
  sta_ip : Nat := 0
  sta_last_disconnect_reason : Nat := WIFI_REASON_UNSPECIFIED
  sta_last_error : Int := ESP_OK
  provisioning_active : Bool := false
  current_mode : WifiMode := WifiMode.Off
  current_provisioning_mode : ProvisionMode := ProvisionMode.SmartConfig
  listeners : List Nat := []
deriving DecidableEq, Repr

/-- The state built by the `WifiService` constructor (wifi_service.cpp:116). -/
def initial_state : WifiServiceState := {}

/-- Raw scan record (`wifi_ap_record_t`): `ssid` is the byte string up to the
first NUL, `bssid` the formatted hardware address text. -/
structure ApRecord where
  ssid : String
  bssid : String
  rssi : Int
  primary : Nat
  authmode : Nat
deriving DecidableEq, Repr

structure WifiNetworkSummary where
  ssid : String := ""
  bssid : String := ""
  rssi : Int := -127
  signal : Int := 0
  channel : Nat := 0
  auth_mode : Nat := 0
  connected : Bool := false
  hidden : Bool := false
deriving DecidableEq, Repr

/-! ### Driver / storage oracle

One field per `esp_*` call site, holding the result the driver returns for
that call during the operation under consideration. -/

inductive DriverCall where
  | ensureInit
  | wifiStop
  | wifiSetMode (m : NativeMode)
  | wifiSetConfigAp
  | wifiSetConfigSta
  | wifiGetConfigSta
  | wifiStart
  | wifiGetMode
  | staGetApInfo
  | wifiDisconnect
  | wifiConnect
  | scanStart
  | scanGetApNum
  | scanGetApRecords
  | smartconfigSetType
  | esptouchSetTimeout (sec : Nat)
  | smartconfigStart
  | smartconfigStop
  | registerScHandlers
  | unregisterScHandlers
deriving DecidableEq, Repr

structure Driver where
  ensureInit : Int := ESP_OK
  wifiStop : Int := ESP_OK
  setMode : Int := ESP_OK
  setConfigAp : Int := ESP_OK
  setConfigSta : Int := ESP_OK
  start : Int := ESP_OK
  getModeErr : Int := ESP_OK
  getModeVal : NativeMode := NativeMode.null
  apInfoOk : Bool := false
  connectCmd : Int := ESP_OK
  getConfigErr : Int := ESP_OK
  storedSsid : String := ""
  storedPassphrase : String := ""
  scanStart : Int := ESP_OK
  scanGetNum : Int := ESP_OK
  scanGetRecords : Int := ESP_OK
  scanRecords : List ApRecord := []
  smartconfigSetType : Int := ESP_OK
  esptouchSetTimeout : Int := ESP_OK
  smartconfigStart : Int := ESP_OK
  smartconfigStop : Int := ESP_OK
  registerGotSsid : Int := ESP_OK
  registerAckDone : Int := ESP_OK
deriving DecidableEq, Repr

/-! ### Operation results -/

structure OpResult where
  ret : Int
  state : WifiServiceState
  events : List WifiEventData
  calls : List DriverCall
deriving DecidableEq, Repr

structure HandlerResult where
  state : WifiServiceState
  events : List WifiEventData
  calls : List DriverCall
deriving DecidableEq, Repr

structure LoadResult where
  creds : Option WifiCredentials
  state : WifiServiceState
  calls : List DriverCall
deriving DecidableEq, Repr

/-! ### Event emission

`emit` walks the listener list in subscription order; `deliveries` is the
resulting stream of (listener, event) deliveries for a list of emissions. -/

def deliveries (ls : List Nat) : List WifiEventData → List (Nat × WifiEventData)
  | [] => []
  | e :: rest => ls.map (fun l => (l, e)) ++ deliveries ls rest

/-- `emit_connection_failed` (wifi_service.cpp:1008): records the error in
`sta_last_error` and emits one `ConnectionFailed` event. -/
def emit_connection_failed (s : WifiServiceState) (error : Int) :
    WifiServiceState × WifiEventData :=
  let s := { s with sta_last_error := error }
  (s, { event := WifiEvent.ConnectionFailed
        mode := s.current_mode
        sta_connected := s.sta_connected
        sta_connecting := s.sta_connecting
        provisioning_active := s.provisioning_active
        error_code := error })

/-- `status` (wifi_service.cpp:742): pure snapshot of the state record. -/
def status (s : WifiServiceState) : WifiStatus :=
  { mode := s.current_mode
    sta_connected := s.sta_connected
    sta_connecting := s.sta_connecting
    provisioning_active := s.provisioning_active
    sta_ip := s.sta_ip
    sta_last_disconnect_reason := s.sta_last_disconnect_reason
    sta_last_error := s.sta_last_error }

/-! ### Operations -/

/-- `ensure_initialized` (wifi_service.cpp:125), abstracted to one oracle
result: its body is entirely driver/NVS initialisation; on success the
`initialized` and `handlers_registered` flags are set. -/
def ensure_inited (s : WifiServiceState) (d : Driver) :
    Int × WifiServiceState × List DriverCall :=
  if d.ensureInit = ESP_OK then
    (ESP_OK, { s with inited := true, handlers_registered := true },
     [DriverCall.ensureInit])
  else
    (d.ensureInit, s, [DriverCall.ensureInit])

/-- `connect(const WifiCredentials&)` (wifi_service.cpp:350). -/
def connect (s : WifiServiceState) (d : Driver) (creds : WifiCredentials) :
    OpResult :=
  let validation_err := validate_station_config creds
  if validation_err ≠ ESP_OK then
    let (s, ev) := emit_connection_failed s validation_err
    { ret := validation_err, state := s, events := [ev], calls := [] }
  else
    let (err, s, calls) := ensure_inited s d
    if err ≠ ESP_OK then
      let (s, ev) := emit_connection_failed s err
      { ret := err, state := s, events := [ev], calls := calls }
    else
      let calls := calls ++ [DriverCall.wifiGetMode]
      if d.getModeErr ≠ ESP_OK then
        let (s, ev) := emit_connection_failed s d.getModeErr
        { ret := d.getModeErr, state := s, events := [ev], calls := calls }
      else if d.getModeVal ≠ NativeMode.sta ∧ d.getModeVal ≠ NativeMode.apsta then
        let (s, ev) := emit_connection_failed s ESP_ERR_INVALID_STATE
        { ret := ESP_ERR_INVALID_STATE, state := s, events := [ev], calls := calls }
      else
        let s := { s with sta_connecting := true }
        let calls := calls ++ [DriverCall.staGetApInfo]
        let (s, calls) :=
          if d.apInfoOk then
            ({ s with sta_manual_disconnect := true },
             calls ++ [DriverCall.wifiDisconnect])
          else (s, calls)
        let calls := calls ++ [DriverCall.wifiSetConfigSta]
        if d.setConfigSta ≠ ESP_OK then
          let (s, ev) := emit_connection_failed s d.setConfigSta
          { ret := d.setConfigSta, state := s, events := [ev], calls := calls }
        else
          let calls := calls ++ [DriverCall.wifiConnect]
          if d.connectCmd ≠ ESP_OK ∧ d.connectCmd ≠ ESP_ERR_WIFI_CONN then
            let (s, ev) := emit_connection_failed s d.connectCmd
            { ret := d.connectCmd, state := s, events := [ev], calls := calls }
          else
            let s := { s with credentials := creds
                              sta_connected := false
                              sta_last_error := ESP_OK
                              sta_last_disconnect_reason := WIFI_REASON_UNSPECIFIED
                              sta_ip := 0 }
            { ret := ESP_OK, state := s, events := [], calls := calls }

/-- `save_credentials` (wifi_service.cpp:418): validate, then write the
station config (persisted in NVS by the driver) and cache the pair. -/
def save_credentials (s : WifiServiceState) (d : Driver)
    (ssid passphrase : String) : OpResult :=
  let creds : WifiCredentials := ⟨ssid, passphrase⟩
  let validation_err := validate_station_config creds
  if validation_err ≠ ESP_OK then
    { ret := validation_err, state := s, events := [], calls := [] }
  else
    let (err, s, calls) := ensure_inited s d
    if err ≠ ESP_OK then
      { ret := err, state := s, events := [], calls := calls }
    else
      let calls := calls ++ [DriverCall.wifiSetConfigSta]
      if d.setConfigSta = ESP_OK then
        { ret := ESP_OK
          state := { s with cached_credentials := some ⟨ssid, passphrase⟩ }
          events := [], calls := calls }
      else
        { ret := d.setConfigSta, state := s, events := [], calls := calls }

/-- `load_credentials` (wifi_service.cpp:463): serve the cache if present,
otherwise read the station config back from the driver (NVS). -/
def load_credentials (s : WifiServiceState) (d : Driver) : LoadResult :=
  if s.cached_credentials.isSome then
    { creds := s.cached_credentials, state := s, calls := [] }
  else
    let (err, s, calls) := ensure_inited s d
    if err ≠ ESP_OK then
      { creds := none, state := s, calls := calls }
    else
      let calls := calls ++ [DriverCall.wifiGetConfigSta]
      if d.getConfigErr ≠ ESP_OK then
        { creds := none, state := s, calls := calls }
      else if d.storedSsid = "" then
        { creds := none, state := s, calls := calls }
      else
        let loaded : WifiCredentials := ⟨d.storedSsid, d.storedPassphrase⟩
        { creds := some loaded
          state := { s with cached_credentials := some loaded }
          calls := calls }

/-- `to_native_mode` (wifi_service.cpp:248). -/
def to_native_mode : WifiMode → NativeMode
  | WifiMode.STA => NativeMode.sta
  | WifiMode.AP => NativeMode.ap
  | WifiMode.APSTA => NativeMode.apsta
  | WifiMode.Off => NativeMode.null

/-- `mode(WifiMode)` (wifi_service.cpp:262): stop, reconfigure, restart; in
the STA branch auto-connect with any loaded credentials. -/
def mode (s : WifiServiceState) (d : Driver) (new_mode : WifiMode) : OpResult :=
  let (err, s, calls) := ensure_inited s d
  if err ≠ ESP_OK then
    { ret := err, state := s, events := [], calls := calls }
  else if s.current_mode = new_mode then
    { ret := ESP_OK, state := s, events := [], calls := calls }
  else
    let calls := calls ++ [DriverCall.wifiStop]
    if d.wifiStop ≠ ESP_OK ∧ d.wifiStop ≠ ESP_ERR_WIFI_NOT_STARTED ∧
        d.wifiStop ≠ ESP_ERR_WIFI_NOT_INIT then
      { ret := d.wifiStop, state := s, events := [], calls := calls }
    else
      let native_mode := to_native_mode new_mode
      if native_mode = NativeMode.null then
        { ret := ESP_OK, state := { s with current_mode := WifiMode.Off }
          events := [], calls := calls }
      else
        let calls := calls ++ [DriverCall.wifiSetMode native_mode]
        if d.setMode ≠ ESP_OK then
          { ret := d.setMode, state := s, events := [], calls := calls }
        else if (native_mode = NativeMode.ap ∨ native_mode = NativeMode.apsta) ∧
            d.setConfigAp ≠ ESP_OK then
          { ret := d.setConfigAp, state := s, events := []
            calls := calls ++ [DriverCall.wifiSetConfigAp,
                               DriverCall.wifiSetMode NativeMode.null] }
        else
          let calls := calls ++
            (if native_mode = NativeMode.ap ∨ native_mode = NativeMode.apsta then
              [DriverCall.wifiSetConfigAp] else []) ++ [DriverCall.wifiStart]
          if d.start ≠ ESP_OK then
            { ret := d.start, state := s, events := []
              calls := calls ++ [DriverCall.wifiSetMode NativeMode.null] }
          else if native_mode = NativeMode.apsta then
            { ret := ESP_OK, state := { s with current_mode := WifiMode.APSTA }
              events := [], calls := calls }
          else if native_mode = NativeMode.ap then
            { ret := ESP_OK, state := { s with current_mode := WifiMode.AP }
              events := [], calls := calls }
          else
            let s := { s with current_mode := WifiMode.STA }
            let lr := load_credentials s d
            match lr.creds with
            | some saved =>
              let cr := connect lr.state d saved
              { ret := ESP_OK, state := cr.state, events := cr.events
                calls := calls ++ lr.calls ++ cr.calls }
            | none =>
              { ret := ESP_OK, state := lr.state, events := []
                calls := calls ++ lr.calls }

/-! ### Signal normalization -/

/-- `signal_quality_from_rssi` (wifi_service.cpp:32): clamped linear transform
from raw RSSI to a 0..100 quality value. -/
def signal_quality_from_rssi (rssi : Int) : Int :=
  if rssi ≤ -100 then 0
  else if rssi ≥ -50 then 100
  else
    let quality := 2 * (rssi + 100)
    if quality < 0 then 0 else if 100 < quality then 100 else quality

/-! ### Driver event ingestion -/

/-- The reason-to-error switch inside `on_sta_disconnected`
(wifi_service.cpp:628). -/
def reason_to_error (reason : Nat) : Int :=
  if reason = WIFI_REASON_AUTH_FAIL then ESP_ERR_WIFI_PASSWORD
  else if reason = WIFI_REASON_AUTH_EXPIRE ∨
      reason = WIFI_REASON_4WAY_HANDSHAKE_TIMEOUT ∨
      reason = WIFI_REASON_HANDSHAKE_TIMEOUT then ESP_ERR_TIMEOUT
  else if reason = WIFI_REASON_NO_AP_FOUND then ESP_ERR_WIFI_SSID
  else ESP_FAIL

/-- `on_sta_got_ip` (wifi_service.cpp:559): record the link-up; if a
provisioning session holds pending credentials, persist them and emit
`ProvisioningCompleted`; always emit one `Connected` event. -/
def on_sta_got_ip (s : WifiServiceState) (d : Driver) (ip : Nat) :
    HandlerResult :=
  let s := { s with sta_connected := true
                    sta_last_error := ESP_OK
                    sta_ip := ip
                    sta_last_disconnect_reason := WIFI_REASON_UNSPECIFIED }
  let (s, events, calls) :=
    if s.sta_connecting then
      let s := { s with sta_connecting := false }
      match s.provisioning_active, s.temp_provisioning_credentials with
      | true, some temp =>
        let sr := save_credentials s d temp.ssid temp.passphrase
        let (s, events) :=
          if sr.ret = ESP_OK then
            (sr.state,
             [{ event := WifiEvent.ProvisioningCompleted
                mode := sr.state.current_mode
                sta_connected := sr.state.sta_connected
                sta_connecting := sr.state.sta_connecting
                provisioning_active := sr.state.provisioning_active
                credentials := sr.state.temp_provisioning_credentials
                ip_address := some ip }])
          else (sr.state, [])
        ({ s with temp_provisioning_credentials := none }, events, sr.calls)
      | _, _ => (s, ([] : List WifiEventData), ([] : List DriverCall))
    else (s, [], [])
  { state := s
    events := events ++
      [{ event := WifiEvent.Connected
         mode := s.current_mode
         sta_connected := s.sta_connected
         sta_connecting := s.sta_connecting
         provisioning_active := s.provisioning_active
         ip_address := some ip }]
    calls := calls }

/-- `on_sta_disconnected` (wifi_service.cpp:610): consume the manual flag; the
ASSOC_LEAVE manual disconnect is suppressed outright; otherwise record the
reason, map it to an error and emit `ConnectionFailed` when a connect was in
flight, and emit `Disconnected`. -/
def on_sta_disconnected (s : WifiServiceState) (reason : Nat) : HandlerResult :=
  let s := { s with sta_connected := false, sta_ip := 0 }
  let manual := s.sta_manual_disconnect
  let s := { s with sta_manual_disconnect := false }
  if manual ∧ reason = WIFI_REASON_ASSOC_LEAVE then
    { state := { s with sta_last_disconnect_reason := WIFI_REASON_UNSPECIFIED
                        sta_last_error := ESP_OK }
      events := [], calls := [] }
  else
    let s := { s with sta_last_disconnect_reason := reason }
    let (s, events) :=
      if s.sta_connecting then
        let s := { s with sta_connecting := false }
        let (s, ev) := emit_connection_failed s (reason_to_error reason)
        (s, [ev])
      else (s, [])
    { state := s
      events := events ++
        [{ event := WifiEvent.Disconnected
           mode := s.current_mode
           sta_connected := s.sta_connected
           sta_connecting := s.sta_connecting
           provisioning_active := s.provisioning_active
           disconnect_reason := some reason }]
      calls := [] }

/-! ### Provisioning -/

/-- `config(const WifiConfig&)` (wifi_service.cpp:338). -/
def config_set (s : WifiServiceState) (c : WifiConfig) :
    Int × WifiServiceState :=
  if !is_valid_ssid c.ap_config.ssid then (ESP_ERR_INVALID_ARG, s)
  else (ESP_OK, { s with wifi_config := c })

/-- `start_wifi_sta_mode` (wifi_service.cpp:203). -/
def start_wifi_sta_mode (s : WifiServiceState) (d : Driver) :
    Int × WifiServiceState × List DriverCall :=
  let (err, s, calls) := ensure_inited s d
  if err ≠ ESP_OK then (err, s, calls)
  else
    let calls := calls ++ [DriverCall.wifiStop]
    if d.wifiStop ≠ ESP_OK ∧ d.wifiStop ≠ ESP_ERR_WIFI_NOT_STARTED ∧
        d.wifiStop ≠ ESP_ERR_WIFI_NOT_INIT then
      (d.wifiStop, s, calls)
    else
      let calls := calls ++ [DriverCall.wifiSetMode NativeMode.sta]
      if d.setMode ≠ ESP_OK then (d.setMode, s, calls)
      else
        let calls := calls ++ [DriverCall.wifiStart]
        if d.start ≠ ESP_OK then
          (d.start, s, calls ++ [DriverCall.wifiSetMode NativeMode.null])
        else
          let s := { s with sta_connected := false
                            sta_last_error := ESP_OK
                            sta_last_disconnect_reason := WIFI_REASON_UNSPECIFIED
                            sta_ip := 0
                            current_mode := WifiMode.STA }
          (ESP_OK, s, calls)

/-- The 15..255 second clamp applied to `opts.timeout_ms / 1000`
(wifi_service.cpp:799). -/
def esptouch_timeout_sec (timeout_ms : Nat) : Nat :=
  let sec := timeout_ms / 1000
  let sec := if sec < 15 then 15 else sec
  if sec > 255 then 255 else sec

/-- `start_provisioning` (wifi_service.cpp:754). -/
def start_provisioning (s : WifiServiceState) (d : Driver)
    (pmode : ProvisionMode) (opts : ProvisioningOptions) : OpResult :=
  if s.provisioning_active then
    { ret := ESP_ERR_INVALID_STATE, state := s, events := [], calls := [] }
  else
    let s := { s with current_provisioning_mode := pmode }
    match pmode with
    | ProvisionMode.SmartConfig =>
      let (err, s, calls) := start_wifi_sta_mode s d
      if err ≠ ESP_OK then
        { ret := err, state := s, events := [], calls := calls }
      else
        let calls := calls ++ [DriverCall.registerScHandlers]
        if d.registerGotSsid ≠ ESP_OK ∧ d.registerGotSsid ≠ ESP_ERR_INVALID_STATE then
          { ret := d.registerGotSsid, state := s, events := [], calls := calls }
        else if d.registerAckDone ≠ ESP_OK ∧ d.registerAckDone ≠ ESP_ERR_INVALID_STATE then
          { ret := d.registerAckDone, state := s, events := []
            calls := calls ++ [DriverCall.unregisterScHandlers] }
        else
          let calls := calls ++ [DriverCall.smartconfigSetType] ++
            (if opts.timeout_ms > 0 then
              [DriverCall.esptouchSetTimeout (esptouch_timeout_sec opts.timeout_ms)]
            else []) ++ [DriverCall.smartconfigStart]
          if d.smartconfigStart ≠ ESP_OK then
            { ret := d.smartconfigStart, state := s, events := []
              calls := calls ++ [DriverCall.unregisterScHandlers] }
          else
            { ret := ESP_OK, state := { s with provisioning_active := true }
              events := [], calls := calls }
    | ProvisionMode.SoftAP =>
      let ap_cfg : AccessPointConfig :=
        ⟨opts.ap_ssid, opts.ap_channel, opts.ap_auth_mode, opts.ap_max_connections⟩
      let updated : WifiConfig := ⟨ap_cfg⟩
      let (cerr, s) := config_set s updated
      if cerr ≠ ESP_OK then
        { ret := cerr, state := s, events := [], calls := [] }
      else
        let mr := mode s d WifiMode.AP
        if mr.ret ≠ ESP_OK then mr
        else
          { ret := ESP_OK, state := { mr.state with provisioning_active := true }
            events := mr.events, calls := mr.calls }

/-- `cancel_provisioning` (wifi_service.cpp:852).  Note: the pending
`temp_provisioning_credentials` field is not touched. -/
def cancel_provisioning (s : WifiServiceState) (d : Driver) : OpResult :=
  if !s.provisioning_active then
    { ret := ESP_OK, state := s, events := [], calls := [] }
  else if s.current_provisioning_mode = ProvisionMode.SmartConfig then
    if d.smartconfigStop ≠ ESP_OK then
      { ret := d.smartconfigStop, state := s, events := []
        calls := [DriverCall.smartconfigStop] }
    else
      { ret := ESP_OK, state := { s with provisioning_active := false }
        events := []
        calls := [DriverCall.smartconfigStop, DriverCall.unregisterScHandlers] }
  else
    { ret := ESP_OK, state := { s with provisioning_active := false }
      events := [], calls := [] }

/-- A `ProvisioningFailed` event as built at the failure sites of
`on_provisioning_done`. -/
def provisioning_failed_event (s : WifiServiceState) (error : Int) :
    WifiEventData :=
  { event := WifiEvent.ProvisioningFailed
    mode := s.current_mode
    sta_connected := s.sta_connected
    sta_connecting := s.sta_connecting
    provisioning_active := s.provisioning_active
    error_code := error }

/-- `on_provisioning_done` (wifi_service.cpp:917), taking the SSID and
passphrase already extracted from the SmartConfig event payload. -/
def on_provisioning_done (s : WifiServiceState) (d : Driver)
    (ssid passphrase : String) : HandlerResult :=
  let received : WifiCredentials := ⟨ssid, passphrase⟩
  let validation_err := validate_station_config received
  if validation_err ≠ ESP_OK then
    { state := s, events := [provisioning_failed_event s validation_err]
      calls := [] }
  else
    let s := { s with temp_provisioning_credentials := some ⟨ssid, passphrase⟩ }
    let creds_event : WifiEventData :=
      { event := WifiEvent.ProvisioningCredentialsReceived
        mode := s.current_mode
        sta_connected := s.sta_connected
        sta_connecting := s.sta_connecting
        provisioning_active := s.provisioning_active
        credentials := s.temp_provisioning_credentials }
    let s := { s with sta_connecting := true }
    let calls := [DriverCall.wifiSetConfigSta]
    if d.setConfigSta ≠ ESP_OK then
      let s := { s with temp_provisioning_credentials := none }
      { state := s
        events := [creds_event, provisioning_failed_event s d.setConfigSta]
        calls := calls }
    else
      let calls := calls ++ [DriverCall.wifiConnect]
      if d.connectCmd ≠ ESP_OK ∧ d.connectCmd ≠ ESP_ERR_WIFI_CONN then
        let s := { s with temp_provisioning_credentials := none }
        { state := s
          events := [creds_event, provisioning_failed_event s d.connectCmd]
          calls := calls }
      else
        { state := s, events := [creds_event], calls := calls }

/-- The `SC_EVENT_SEND_ACK_DONE` branch of `provisioning_event_handler`
(wifi_service.cpp:895): stop SmartConfig, unregister, deactivate. -/
def on_provisioning_ack_done (s : WifiServiceState) : HandlerResult :=
  if s.current_provisioning_mode = ProvisionMode.SmartConfig then
    { state := { s with provisioning_active := false }
      events := []
      calls := [DriverCall.smartconfigStop, DriverCall.unregisterScHandlers] }
  else
    { state := s, events := [], calls := [] }

/-! ### Scanning -/

/-- One `WifiNetworkSummary` as built in the loop of `perform_scan`
(wifi_service.cpp:704), for a record with a non-empty SSID. -/
def summary_of_record (s : WifiServiceState) (r : ApRecord) :
    WifiNetworkSummary :=
  { ssid := r.ssid
    bssid := r.bssid
    rssi := r.rssi
    signal := signal_quality_from_rssi r.rssi
    channel := r.primary
    auth_mode := r.authmode
    hidden := false
    connected := s.sta_connected && !(s.credentials.ssid == "") &&
      (s.credentials.ssid == r.ssid) }

/-- The comparator of the final `std::ranges::sort` (wifi_service.cpp:734):
entries ordered by non-increasing normalized signal. -/
def signalGE (a b : WifiNetworkSummary) : Prop := b.signal ≤ a.signal

instance : DecidableRel signalGE :=
  fun a b => inferInstanceAs (Decidable (b.signal ≤ a.signal))

instance : IsTotal WifiNetworkSummary signalGE :=
  ⟨fun a b => le_total b.signal a.signal⟩

instance : IsTrans WifiNetworkSummary signalGE :=
  ⟨fun _ _ _ h1 h2 => le_trans h2 h1⟩

structure ScanResult where
  networks : List WifiNetworkSummary
  error : Int
  calls : List DriverCall
deriving DecidableEq, Repr

/-- `perform_scan` (wifi_service.cpp:660).  The unstable `std::ranges::sort`
is modelled as insertion sort over the same ordering. -/
def perform_scan (s : WifiServiceState) (d : Driver) : ScanResult :=
  let calls := [DriverCall.wifiGetMode]
  if d.getModeErr ≠ ESP_OK ∨ d.getModeVal = NativeMode.null then
    { networks := [], error := ESP_ERR_INVALID_STATE, calls := calls }
  else
    let calls := calls ++ [DriverCall.scanStart]
    if d.scanStart ≠ ESP_OK then
      { networks := [], error := d.scanStart, calls := calls }
    else
      let calls := calls ++ [DriverCall.scanGetApNum]
      if d.scanGetNum ≠ ESP_OK then
        { networks := [], error := d.scanGetNum, calls := calls }
      else if d.scanRecords.length > 0 ∧ d.scanGetRecords ≠ ESP_OK then
        { networks := [], error := d.scanGetRecords
          calls := calls ++ [DriverCall.scanGetApRecords] }
      else
        let calls := calls ++
          (if d.scanRecords.length > 0 then [DriverCall.scanGetApRecords] else [])
        let kept := d.scanRecords.filter (fun r => !(r.ssid == ""))
        let networks := (kept.map (summary_of_record s)).insertionSort signalGE
        { networks := networks, error := ESP_OK, calls := calls }

/-! ## Claims -/

/-- C8: the signal-normalization function is a clamped linear transform: every
raw RSSI value at most -100 maps to 0, every value at least -50 maps to 100,
-100, -75, -50 map to 0, 50, 100 respectively, and every output lies in
[0, 100]. -/
theorem C8_signal_quality_clamped_linear (rssi : Int) :
    (rssi ≤ -100 → signal_quality_from_rssi rssi = 0) ∧
    (-50 ≤ rssi → signal_quality_from_rssi rssi = 100) ∧
    signal_quality_from_rssi (-100) = 0 ∧
    signal_quality_from_rssi (-75) = 50 ∧
    signal_quality_from_rssi (-50) = 100 ∧
    0 ≤ signal_quality_from_rssi rssi ∧ signal_quality_from_rssi rssi ≤ 100 := by
  refine ⟨?_, ?_, by decide, by decide, by decide, ?_, ?_⟩ <;>
    first
      | (intro h
         simp only [signal_quality_from_rssi, ge_iff_le]
         split_ifs <;> omega)
      | (simp only [signal_quality_from_rssi, ge_iff_le]
         split_ifs <;> omega)

/-- Witness for C8 at concrete inputs. -/
theorem C8_witness :
    signal_quality_from_rssi (-120) = 0 ∧ signal_quality_from_rssi (-42) = 100 :=
  ⟨(C8_signal_quality_clamped_linear (-120)).1 (by decide),
   (C8_signal_quality_clamped_linear (-42)).2.1 (by decide)⟩

/-- C7: while a provisioning session is active, a second `start_provisioning`
call (either variant, any options) returns `ESP_ERR_INVALID_STATE` and leaves
the whole service state untouched, issuing no driver call and emitting no
event. -/
theorem C7_start_provisioning_while_active (s : WifiServiceState) (d : Driver)
    (pmode : ProvisionMode) (opts : ProvisioningOptions)
    (h : s.provisioning_active = true) :
    start_provisioning s d pmode opts =
      { ret := ESP_ERR_INVALID_STATE, state := s, events := [], calls := [] } := by
  simp [start_provisioning, h]

/-- Witness for C7: second start after a successful SmartConfig start. -/
theorem C7_witness :
    (start_provisioning initial_state {} ProvisionMode.SmartConfig {}).state.provisioning_active = true ∧
    start_provisioning (start_provisioning initial_state {} ProvisionMode.SmartConfig {}).state {}
        ProvisionMode.SoftAP {} =
      { ret := ESP_ERR_INVALID_STATE
        state := (start_provisioning initial_state {} ProvisionMode.SmartConfig {}).state
        events := [], calls := [] } :=
  ⟨by decide,
   C7_start_provisioning_while_active _ {} ProvisionMode.SoftAP {} (by decide)⟩

/-- C10: after a successful `save_credentials(ssid, passphrase)`, a subsequent
`load_credentials` returns exactly that pair, served from the in-memory cache
with no storage read (empty call list) and no state change. -/
theorem C10_save_load_roundtrip (s : WifiServiceState) (d dl : Driver)
    (ssid passphrase : String)
    (h : (save_credentials s d ssid passphrase).ret = ESP_OK) :
    load_credentials (save_credentials s d ssid passphrase).state dl =
      { creds := some ⟨ssid, passphrase⟩
        state := (save_credentials s d ssid passphrase).state
        calls := [] } := by
  by_cases hv : validate_station_config ⟨ssid, passphrase⟩ = ESP_OK
  · by_cases hi : d.ensureInit = ESP_OK
    · by_cases hc : d.setConfigSta = ESP_OK
      · simp [save_credentials, load_credentials, ensure_inited, hv, hi, hc]
      · simp [save_credentials, ensure_inited, hv, hi, hc] at h
    · simp [save_credentials, ensure_inited, hv, hi] at h
  · simp [save_credentials, hv] at h

/-- Witness for C10 at a concrete valid pair. -/
theorem C10_witness :
    (save_credentials initial_state {} "homenet" "password1").ret = ESP_OK ∧
    load_credentials (save_credentials initial_state {} "homenet" "password1").state {} =
      { creds := some ⟨"homenet", "password1"⟩
        state := (save_credentials initial_state {} "homenet" "password1").state
        calls := [] } :=
  ⟨by decide, C10_save_load_roundtrip initial_state {} {} "homenet" "password1" (by decide)⟩

/-- Counterexample to C1 as stated: on invalid credentials (empty identifier)
`connect` does return `ESP_ERR_INVALID_ARG` with no driver call, but it emits a
`ConnectionFailed` event, so it does not "emit no event beyond the immediate
return value". -/
theorem C1_counterexample :
    (connect initial_state {} ⟨"", ""⟩).ret = ESP_ERR_INVALID_ARG ∧
    (connect initial_state {} ⟨"", ""⟩).calls = [] ∧
    (connect initial_state {} ⟨"", ""⟩).events ≠ [] := by decide

/-- C1 (amended): for credentials outside the validity invariant, `connect`
and `save_credentials` both return `ESP_ERR_INVALID_ARG` and perform no driver
or storage call; `save_credentials` changes nothing and emits nothing, while
`connect` records the error in `sta_last_error` and emits exactly one
`ConnectionFailed` event. -/
theorem C1_invalid_credentials_rejected (s : WifiServiceState) (d : Driver)
    (creds : WifiCredentials)
    (h : ¬(is_valid_ssid creds.ssid = true ∧ is_valid_passphrase creds.passphrase = true)) :
    (connect s d creds).ret = ESP_ERR_INVALID_ARG ∧
    (connect s d creds).calls = [] ∧
    (connect s d creds).events =
      [{ event := WifiEvent.ConnectionFailed
         mode := s.current_mode
         sta_connected := s.sta_connected
         sta_connecting := s.sta_connecting
         provisioning_active := s.provisioning_active
         error_code := ESP_ERR_INVALID_ARG }] ∧
    (connect s d creds).state = { s with sta_last_error := ESP_ERR_INVALID_ARG } ∧
    save_credentials s d creds.ssid creds.passphrase =
      { ret := ESP_ERR_INVALID_ARG, state := s, events := [], calls := [] } := by
  obtain ⟨cs, cp⟩ := creds
  have hv : validate_station_config ⟨cs, cp⟩ = ESP_ERR_INVALID_ARG := by
    unfold validate_station_config
    by_cases h1 : is_valid_ssid cs <;> by_cases h2 : is_valid_passphrase cp <;>
      simp_all
  have hne : validate_station_config ⟨cs, cp⟩ ≠ ESP_OK := by
    rw [hv]; decide
  refine ⟨?_, ?_, ?_, ?_, ?_⟩ <;>
    simp [connect, save_credentials, emit_connection_failed, hv, hne,
      ESP_ERR_INVALID_ARG, ESP_OK]

/-- Witness for C1 (amended) at a concrete invalid pair (secret of length 5). -/
theorem C1_witness :
    (connect initial_state {} ⟨"ab", "short"⟩).calls = [] ∧
    save_credentials initial_state {} "ab" "short" =
      { ret := ESP_ERR_INVALID_ARG, state := initial_state, events := [], calls := [] } :=
  ⟨(C1_invalid_credentials_rejected initial_state {} ⟨"ab", "short"⟩ (by decide)).2.1,
   (C1_invalid_credentials_rejected initial_state {} ⟨"ab", "short"⟩ (by decide)).2.2.2.2⟩

/-- State after a successful SmartConfig `start_provisioning` from the
constructor state. -/
def c2_after_start : WifiServiceState :=
  (start_provisioning initial_state {} ProvisionMode.SmartConfig {}).state

/-- State after the provisioning "credentials received" event delivers a valid
pair with all driver calls succeeding. -/
def c2_after_creds : WifiServiceState :=
  (on_provisioning_done c2_after_start {} "homenet" "password1").state

/-- Result of `cancel_provisioning` on that session. -/
def c2_after_cancel : OpResult := cancel_provisioning c2_after_creds {}

/-- Counterexample to C2 as stated: cancelling an active session that holds
pending credentials sets `provisioning_active := false` but leaves
`temp_provisioning_credentials` set, so the invariant "inactive implies no
pending credentials" is violated and `cancel_provisioning` does not discard
pending credentials. -/
theorem C2_counterexample :
    c2_after_creds.provisioning_active = true ∧
    c2_after_creds.temp_provisioning_credentials = some ⟨"homenet", "password1"⟩ ∧
    c2_after_cancel.ret = ESP_OK ∧
    c2_after_cancel.state.provisioning_active = false ∧
    c2_after_cancel.state.temp_provisioning_credentials = some ⟨"homenet", "password1"⟩ := by
  decide

/-- C2 (amended): `cancel_provisioning`, called while a session is active
(with the SmartConfig stop succeeding), returns success and sets the active
flag to false but retains any pending credentials unchanged; the invariant
"inactive implies no pending credentials" holds in the constructor state but
not after such a cancel. -/
theorem C2_cancel_retains_pending (s : WifiServiceState) (d : Driver)
    (ha : s.provisioning_active = true) (hstop : d.smartconfigStop = ESP_OK) :
    (cancel_provisioning s d).ret = ESP_OK ∧
    (cancel_provisioning s d).state.provisioning_active = false ∧
    (cancel_provisioning s d).state.temp_provisioning_credentials =
      s.temp_provisioning_credentials ∧
    initial_state.provisioning_active = false ∧
    initial_state.temp_provisioning_credentials = none := by
  by_cases hm : s.current_provisioning_mode = ProvisionMode.SmartConfig <;>
    simp [cancel_provisioning, ha, hstop, hm, initial_state]

/-- Witness for C2 (amended) on a concrete active session with pending
credentials. -/
theorem C2_witness :
    (cancel_provisioning
        { initial_state with
            provisioning_active := true
            temp_provisioning_credentials := some ⟨"net", "password1"⟩ } {}).state.temp_provisioning_credentials =
      some ⟨"net", "password1"⟩ :=
  (C2_cancel_retains_pending
    { initial_state with
        provisioning_active := true
        temp_provisioning_credentials := some ⟨"net", "password1"⟩ } {} rfl rfl).2.2.1

/-- Counterexample to C3 as stated: with the service in STA mode, a failing
AP-configure call inside `mode(AP)` returns the driver error but leaves the
reported mode at STA, not Off. -/
theorem C3_counterexample :
    (mode { initial_state with current_mode := WifiMode.STA }
        { setConfigAp := ESP_FAIL } WifiMode.AP).ret = ESP_FAIL ∧
    (mode { initial_state with current_mode := WifiMode.STA }
        { setConfigAp := ESP_FAIL } WifiMode.AP).state.current_mode = WifiMode.STA ∧
    WifiMode.STA ≠ WifiMode.Off := by decide

/-- C3 (amended): whenever `mode(requested)` returns a failure, the reported
mode is left unchanged at its previous value (which is Off only when it
already was Off), and no event is emitted. -/
theorem C3_mode_failure_keeps_previous_mode (s : WifiServiceState) (d : Driver)
    (m : WifiMode) (h : (mode s d m).ret ≠ ESP_OK) :
    (mode s d m).state.current_mode = s.current_mode ∧ (mode s d m).events = [] := by
  by_cases h1 : d.ensureInit = ESP_OK
  case neg => simp [mode, ensure_inited, h1]
  case pos =>
    by_cases h2 : s.current_mode = m
    case pos => simp [mode, ensure_inited, h1, h2] at h
    case neg =>
      by_cases h3 : d.wifiStop ≠ ESP_OK ∧ d.wifiStop ≠ ESP_ERR_WIFI_NOT_STARTED ∧
          d.wifiStop ≠ ESP_ERR_WIFI_NOT_INIT
      case pos => simp [mode, ensure_inited, h1, h2, h3]
      case neg =>
        cases m with
        | Off => simp [mode, ensure_inited, to_native_mode, h1, h2, h3] at h
        | STA =>
          by_cases h5 : d.setMode = ESP_OK
          case neg => simp [mode, ensure_inited, to_native_mode, h1, h2, h3, h5]
          case pos =>
            by_cases h7 : d.start = ESP_OK
            case neg =>
              simp [mode, ensure_inited, to_native_mode, h1, h2, h3, h5, h7]
            case pos =>
              exfalso
              apply h
              simp only [mode, ensure_inited, to_native_mode, h1, h2, h3, h5, h7]
              simp [h1, h2, h3, h5, h7]
              split <;> rfl
        | AP =>
          by_cases h5 : d.setMode = ESP_OK
          case neg => simp [mode, ensure_inited, to_native_mode, h1, h2, h3, h5]
          case pos =>
            by_cases h6 : d.setConfigAp = ESP_OK
            case neg =>
              simp [mode, ensure_inited, to_native_mode, h1, h2, h3, h5, h6]
            case pos =>
              by_cases h7 : d.start = ESP_OK
              case neg =>
                simp [mode, ensure_inited, to_native_mode, h1, h2, h3, h5, h6, h7]
              case pos =>
                simp [mode, ensure_inited, to_native_mode, h1, h2, h3, h5, h6, h7] at h
        | APSTA =>
          by_cases h5 : d.setMode = ESP_OK
          case neg => simp [mode, ensure_inited, to_native_mode, h1, h2, h3, h5]
          case pos =>
            by_cases h6 : d.setConfigAp = ESP_OK
            case neg =>
              simp [mode, ensure_inited, to_native_mode, h1, h2, h3, h5, h6]
            case pos =>
              by_cases h7 : d.start = ESP_OK
              case neg =>
                simp [mode, ensure_inited, to_native_mode, h1, h2, h3, h5, h6, h7]
              case pos =>
                simp [mode, ensure_inited, to_native_mode, h1, h2, h3, h5, h6, h7] at h

/-- Witness for C3 (amended): failing start during `mode(STA)` from Off. -/
theorem C3_witness :
    (mode initial_state { start := ESP_FAIL } WifiMode.STA).state.current_mode =
      initial_state.current_mode :=
  (C3_mode_failure_keeps_previous_mode initial_state { start := ESP_FAIL }
    WifiMode.STA (by decide)).1

/-- Counterexample to C4 as stated: a link-down with the manual flag set but
reason `AUTH_FAIL` (not `ASSOC_LEAVE`) records the reason and emits a
`ConnectionFailed` event, so suppression is not independent of the reason
code. -/
theorem C4_counterexample :
    (on_sta_disconnected
        { initial_state with sta_manual_disconnect := true, sta_connecting := true }
        WIFI_REASON_AUTH_FAIL).state.sta_last_disconnect_reason ≠ WIFI_REASON_UNSPECIFIED ∧
    ((on_sta_disconnected
        { initial_state with sta_manual_disconnect := true, sta_connecting := true }
        WIFI_REASON_AUTH_FAIL).events.countP
      (fun e => e.event == WifiEvent.ConnectionFailed)) = 1 := by decide

/-- C4 (amended): on any link-down with the manual flag set, the flag is
consumed (false afterwards); the suppression itself (reason stays
`WIFI_REASON_UNSPECIFIED`, no event at all — in particular no
`ConnectionFailed`) happens exactly when the reason is
`WIFI_REASON_ASSOC_LEAVE`: for every other reason the raw reason code is
recorded and, if a connect was in flight, exactly one `ConnectionFailed`
event fires. -/
theorem C4_manual_disconnect_suppression (s : WifiServiceState) (reason : Nat)
    (h : s.sta_manual_disconnect = true) :
    (on_sta_disconnected s reason).state.sta_manual_disconnect = false ∧
    (reason = WIFI_REASON_ASSOC_LEAVE →
      (on_sta_disconnected s reason).state.sta_last_disconnect_reason =
        WIFI_REASON_UNSPECIFIED ∧
      (on_sta_disconnected s reason).state.sta_last_error = ESP_OK ∧
      (on_sta_disconnected s reason).events = []) ∧
    (reason ≠ WIFI_REASON_ASSOC_LEAVE →
      (on_sta_disconnected s reason).state.sta_last_disconnect_reason = reason ∧
      (s.sta_connecting = true →
        (on_sta_disconnected s reason).events.countP
          (fun e => e.event == WifiEvent.ConnectionFailed) = 1)) := by
  refine ⟨?_, ?_, ?_⟩
  · simp only [on_sta_disconnected, h]
    split_ifs <;> simp [emit_connection_failed]
  · intro hr
    simp [on_sta_disconnected, h, hr]
  · intro hr
    constructor
    · cases hcon : s.sta_connecting <;>
        simp [on_sta_disconnected, h, hr, hcon, emit_connection_failed]
    · intro hcon
      simp [on_sta_disconnected, h, hr, hcon, emit_connection_failed,
        List.countP_cons]

/-- Witness for C4 (amended) at a concrete manual ASSOC_LEAVE link-down
(suppressed) and a concrete manual NO_AP_FOUND link-down while connecting
(reason recorded, one ConnectionFailed fired). -/
theorem C4_witness :
    (on_sta_disconnected { initial_state with sta_manual_disconnect := true }
        WIFI_REASON_ASSOC_LEAVE).state.sta_manual_disconnect = false ∧
    (on_sta_disconnected { initial_state with sta_manual_disconnect := true }
        WIFI_REASON_ASSOC_LEAVE).events = [] ∧
    (on_sta_disconnected
        { initial_state with sta_manual_disconnect := true, sta_connecting := true }
        WIFI_REASON_NO_AP_FOUND).state.sta_last_disconnect_reason =
      WIFI_REASON_NO_AP_FOUND ∧
    (on_sta_disconnected
        { initial_state with sta_manual_disconnect := true, sta_connecting := true }
        WIFI_REASON_NO_AP_FOUND).events.countP
      (fun e => e.event == WifiEvent.ConnectionFailed) = 1 :=
  ⟨(C4_manual_disconnect_suppression
      { initial_state with sta_manual_disconnect := true } WIFI_REASON_ASSOC_LEAVE rfl).1,
   ((C4_manual_disconnect_suppression
      { initial_state with sta_manual_disconnect := true } WIFI_REASON_ASSOC_LEAVE rfl).2.1 rfl).2.2,
   ((C4_manual_disconnect_suppression
      { initial_state with sta_manual_disconnect := true, sta_connecting := true }
      WIFI_REASON_NO_AP_FOUND rfl).2.2 (by decide)).1,
   ((C4_manual_disconnect_suppression
      { initial_state with sta_manual_disconnect := true, sta_connecting := true }
      WIFI_REASON_NO_AP_FOUND rfl).2.2 (by decide)).2 rfl⟩

/-- C5: a non-manual link-down while a connect is in flight clears
`sta_connecting`, records and emits exactly one `ConnectionFailed` whose error
follows the fixed reason-to-error table: `AUTH_FAIL` maps to
`ESP_ERR_WIFI_PASSWORD`, the handshake/association timeout reasons map to
`ESP_ERR_TIMEOUT`, `NO_AP_FOUND` maps to `ESP_ERR_WIFI_SSID`, and every other
reason maps to `ESP_FAIL`. -/
theorem C5_disconnect_reason_mapping (s : WifiServiceState) (reason : Nat)
    (hc : s.sta_connecting = true) (hm : s.sta_manual_disconnect = false) :
    (on_sta_disconnected s reason).state.sta_connecting = false ∧
    (on_sta_disconnected s reason).state.sta_last_error = reason_to_error reason ∧
    (on_sta_disconnected s reason).events.countP
      (fun e => e.event == WifiEvent.ConnectionFailed) = 1 ∧
    (∀ e ∈ (on_sta_disconnected s reason).events,
      e.event = WifiEvent.ConnectionFailed → e.error_code = reason_to_error reason) ∧
    reason_to_error WIFI_REASON_AUTH_FAIL = ESP_ERR_WIFI_PASSWORD ∧
    reason_to_error WIFI_REASON_AUTH_EXPIRE = ESP_ERR_TIMEOUT ∧
    reason_to_error WIFI_REASON_4WAY_HANDSHAKE_TIMEOUT = ESP_ERR_TIMEOUT ∧
    reason_to_error WIFI_REASON_HANDSHAKE_TIMEOUT = ESP_ERR_TIMEOUT ∧
    reason_to_error WIFI_REASON_NO_AP_FOUND = ESP_ERR_WIFI_SSID ∧
    (∀ r2 : Nat, r2 ≠ WIFI_REASON_AUTH_FAIL → r2 ≠ WIFI_REASON_AUTH_EXPIRE →
      r2 ≠ WIFI_REASON_4WAY_HANDSHAKE_TIMEOUT → r2 ≠ WIFI_REASON_HANDSHAKE_TIMEOUT →
      r2 ≠ WIFI_REASON_NO_AP_FOUND → reason_to_error r2 = ESP_FAIL) := by
  refine ⟨?_, ?_, ?_, ?_, by decide, by decide, by decide, by decide, by decide, ?_⟩
  · simp [on_sta_disconnected, hm, hc, emit_connection_failed]
  · simp [on_sta_disconnected, hm, hc, emit_connection_failed]
  · simp [on_sta_disconnected, hm, hc, emit_connection_failed, List.countP_cons]
  · intro e he hev
    simp [on_sta_disconnected, hm, hc, emit_connection_failed] at he
    rcases he with he | he <;> subst he <;> simp_all
  · intro r2 h1 h2 h3 h4 h5
    simp [reason_to_error, h1, h2, h3, h4, h5]

/-- Witness for C5 at a concrete AUTH_FAIL link-down while connecting. -/
theorem C5_witness :
    (on_sta_disconnected { initial_state with sta_connecting := true }
        WIFI_REASON_AUTH_FAIL).state.sta_last_error = reason_to_error WIFI_REASON_AUTH_FAIL ∧
    reason_to_error WIFI_REASON_AUTH_FAIL = ESP_ERR_WIFI_PASSWORD :=
  ⟨(C5_disconnect_reason_mapping { initial_state with sta_connecting := true }
      WIFI_REASON_AUTH_FAIL rfl rfl).2.1,
   (C5_disconnect_reason_mapping { initial_state with sta_connecting := true }
      WIFI_REASON_AUTH_FAIL rfl rfl).2.2.2.2.1⟩

/-- Delivery count of `Connected` events: each emission reaches every
subscribed listener once, in subscription order. -/
theorem countP_deliveries_connected (ls : List Nat) (l : Nat)
    (evs : List WifiEventData) :
    (deliveries ls evs).countP (fun p => p.1 == l && p.2.event == WifiEvent.Connected) =
      ls.countP (fun x => x == l) * evs.countP (fun e => e.event == WifiEvent.Connected) := by
  induction evs with
  | nil => simp [deliveries]
  | cons e rest ih =>
    have hcomp : ((fun p : Nat × WifiEventData =>
        p.1 == l && p.2.event == WifiEvent.Connected) ∘ fun x => (x, e)) =
        fun x => (x == l && (e.event == WifiEvent.Connected)) := rfl
    cases hb : (e.event == WifiEvent.Connected) <;>
      simp [deliveries, List.countP_append, List.countP_cons, hcomp, hb, ih,
        Nat.mul_add, Nat.mul_one]
    all_goals ring

/-- C6: a link-up ingested while `sta_connecting` is true leaves a status
snapshot with `sta_connected = true`, `sta_connecting = false`, the assigned
address recorded, the last error and disconnect reason cleared, and exactly
one `Connected` event delivered to each subscribed listener (delivery count
equals the listener's subscription multiplicity). -/
theorem C6_link_up_while_connecting (s : WifiServiceState) (d : Driver)
    (ip : Nat) (hc : s.sta_connecting = true) :
    (status (on_sta_got_ip s d ip).state).sta_connected = true ∧
    (status (on_sta_got_ip s d ip).state).sta_connecting = false ∧
    (status (on_sta_got_ip s d ip).state).sta_ip = ip ∧
    (status (on_sta_got_ip s d ip).state).sta_last_error = ESP_OK ∧
    (status (on_sta_got_ip s d ip).state).sta_last_disconnect_reason =
      WIFI_REASON_UNSPECIFIED ∧
    (on_sta_got_ip s d ip).events.countP
      (fun e => e.event == WifiEvent.Connected) = 1 ∧
    (∀ l : Nat,
      (deliveries s.listeners (on_sta_got_ip s d ip).events).countP
          (fun p => p.1 == l && p.2.event == WifiEvent.Connected) =
        s.listeners.countP (fun x => x == l)) := by
  rcases htp : s.temp_provisioning_credentials with _ | temp
  · cases hpa : s.provisioning_active <;>
      simp [on_sta_got_ip, status, hc, hpa, htp, countP_deliveries_connected]
  · cases hpa : s.provisioning_active
    · simp [on_sta_got_ip, status, hc, hpa, htp, countP_deliveries_connected]
    · by_cases hv : validate_station_config ⟨temp.ssid, temp.passphrase⟩ = ESP_OK <;>
        by_cases hi : d.ensureInit = ESP_OK <;>
          by_cases hc2 : d.setConfigSta = ESP_OK <;>
            simp [on_sta_got_ip, status, save_credentials, ensure_inited, hc, hpa,
              htp, hv, hi, hc2, countP_deliveries_connected]

/-- Witness for C6: a link-up on a connecting service with one listener. -/
theorem C6_witness :
    (status (on_sta_got_ip
        { initial_state with sta_connecting := true, listeners := [7] } {} 42).state).sta_connected = true ∧
    (deliveries [7]
        (on_sta_got_ip
          { initial_state with sta_connecting := true, listeners := [7] } {} 42).events).countP
      (fun p => p.1 == 7 && p.2.event == WifiEvent.Connected) =
      List.countP (fun x => x == 7) [7] :=
  ⟨(C6_link_up_while_connecting
      { initial_state with sta_connecting := true, listeners := [7] } {} 42 rfl).1,
   (C6_link_up_while_connecting
      { initial_state with sta_connecting := true, listeners := [7] } {} 42 rfl).2.2.2.2.2.2 7⟩

/-- C9: `perform_scan` fails with `ESP_ERR_INVALID_STATE` and an empty list
when the radio is not started (driver mode read fails or reports NULL);
otherwise, on success, the returned list contains no entry with an empty
identifier, is a permutation of one summary per raw record with a non-empty
identifier (duplicates not merged — its length equals the number of such
records), and is sorted by non-increasing normalized signal. -/
theorem C9_scan_results (s : WifiServiceState) (d : Driver) :
    ((d.getModeErr ≠ ESP_OK ∨ d.getModeVal = NativeMode.null) →
      (perform_scan s d).error = ESP_ERR_INVALID_STATE ∧
      (perform_scan s d).networks = []) ∧
    ((perform_scan s d).error = ESP_OK →
      (∀ n ∈ (perform_scan s d).networks, ¬(n.ssid = "")) ∧
      (perform_scan s d).networks.Perm
        ((d.scanRecords.filter (fun r => !(r.ssid == ""))).map
          (summary_of_record s)) ∧
      (perform_scan s d).networks.length =
        (d.scanRecords.filter (fun r => !(r.ssid == ""))).length ∧
      List.Sorted signalGE (perform_scan s d).networks) := by
  constructor
  · intro h
    simp [perform_scan, h]
  · intro he
    by_cases h0 : d.getModeErr ≠ ESP_OK ∨ d.getModeVal = NativeMode.null
    · have hE : (perform_scan s d).error = ESP_ERR_INVALID_STATE := by
        simp [perform_scan, h0]
      rw [hE] at he
      exact absurd he (by decide)
    · by_cases h1 : d.scanStart = ESP_OK
      case neg =>
        simp [perform_scan, h0, h1] at he
      case pos =>
        by_cases h2 : d.scanGetNum = ESP_OK
        case neg =>
          simp [perform_scan, h0, h1, h2] at he
        case pos =>
          by_cases h3 : d.scanRecords.length > 0 ∧ d.scanGetRecords ≠ ESP_OK
          case pos =>
            simp [perform_scan, h0, h1, h2, h3] at he
          case neg =>
            have hnet : (perform_scan s d).networks =
                ((d.scanRecords.filter (fun r => !(r.ssid == ""))).map
                  (summary_of_record s)).insertionSort signalGE := by
              simp [perform_scan, h0, h1, h2, h3]
            refine ⟨?_, ?_, ?_, ?_⟩
            · intro n hn
              rw [hnet] at hn
              have hmem := (List.perm_insertionSort signalGE _).mem_iff.mp hn
              obtain ⟨r, hr, hrn⟩ := List.mem_map.mp hmem
              have hne := (List.mem_filter.mp hr).2
              rw [← hrn]
              simpa [summary_of_record] using hne
            · rw [hnet]
              exact List.perm_insertionSort signalGE _
            · rw [hnet]
              rw [List.length_insertionSort, List.length_map]
            · rw [hnet]
              exact List.sorted_insertionSort signalGE _

/-- Witness for C9: the spec scenario (signals -60, -90, -40 plus a hidden
entry) scans successfully, sorted with three visible networks, and an Off
radio yields `ESP_ERR_INVALID_STATE`. -/
theorem C9_witness :
    (perform_scan initial_state
        { getModeVal := NativeMode.sta
          scanRecords := [⟨"a", "A", -60, 1, 0⟩, ⟨"b", "B", -90, 2, 0⟩,
            ⟨"", "C", -40, 3, 0⟩, ⟨"c", "D", -40, 4, 0⟩] }).error = ESP_OK ∧
    List.Sorted signalGE
      (perform_scan initial_state
        { getModeVal := NativeMode.sta
          scanRecords := [⟨"a", "A", -60, 1, 0⟩, ⟨"b", "B", -90, 2, 0⟩,
            ⟨"", "C", -40, 3, 0⟩, ⟨"c", "D", -40, 4, 0⟩] }).networks ∧
    (perform_scan initial_state
        { getModeVal := NativeMode.sta
          scanRecords := [⟨"a", "A", -60, 1, 0⟩, ⟨"b", "B", -90, 2, 0⟩,
            ⟨"", "C", -40, 3, 0⟩, ⟨"c", "D", -40, 4, 0⟩] }).networks.map
      (fun n => n.signal) = [100, 80, 20] ∧
    (perform_scan initial_state {}).error = ESP_ERR_INVALID_STATE :=
  ⟨by decide,
   ((C9_scan_results initial_state
      { getModeVal := NativeMode.sta
        scanRecords := [⟨"a", "A", -60, 1, 0⟩, ⟨"b", "B", -90, 2, 0⟩,
          ⟨"", "C", -40, 3, 0⟩, ⟨"c", "D", -40, 4, 0⟩] }).2 (by decide)).2.2.2,
   by decide,
   ((C9_scan_results initial_state {}).1 (by decide)).1⟩

end Earbrain
